import Mathlib

/-!
Shallow embedding of the SSE event-consumption core of the projectSynapse
frontend (repository AnouskaJ/projectSynapse), covering:

* `src/AgentStream.jsx` — the canonical AgentStream component: its
  `handleSSELine`, `start`, `stop`, `resumeWithAnswer` operations and the
  derived projections `classification`, `steps`, `mapPayload`;
* `src/synapse-frontend/src/pages/GrabCar.jsx` — the GrabCar page's
  `handleEvent` reducer and its `resumeWithAnswer`;
* `src/synapse-frontend/src/components/agent/AgentRunner.jsx` — the
  `es.onmessage` line decoder feeding GrabCar.

Conventions of the embedding:

* JavaScript objects streamed on the wire are modelled by the `Payload` /
  `DataObj` / `Observation` / `MapPayload` structures below; fields the
  handlers never read (map routes, metrics, merchant lists, params, FCM
  tokens) are omitted.  An absent / `undefined` field is `none`.
* `JSON.parse` is a platform primitive; a raw transport line is modelled as
  a `RawLine` carrying the raw text together with the result of `JSON.parse`
  on it (`none` when parsing throws).  JSON values that are not objects are
  outside the model.
* JavaScript string truthiness (`undefined`, `null` and `""` are falsy) is
  `truthy` below.
* React `useState` cells of a component are collected into one `State`
  structure, and each event handler becomes a pure `State → ... → State`
  function.  The `EventSource` subscription held in `esRef` is modelled by
  the boolean `esOpen`: a closed `EventSource` delivers no `onmessage`
  callbacks, which `deliverLine` makes explicit.
* Side effects on external collaborators (FCM token refresh, notification
  permission prompts, DOM scrolling) are not state of this core and are
  dropped; the success path of the asynchronous bodies is modelled.
-/

/-- Map payload embedded in a step observation (`observation.map`); the
handlers only test its presence and forward it, so only the `kind`
discriminator (`"directions"` / `"markers"` / `"compare_routes"`) is kept. -/
structure MapPayload where
  kind : String := ""
deriving DecidableEq

/-- Observation object of a step (`step.data.observation`), restricted to the
fields the embedded handlers read. -/
structure Observation where
  map : Option MapPayload := none
  message : Option String := none
  tool : Option String := none
deriving DecidableEq

/-- Variant payload (`data` field of a streamed event), restricted to the
fields the embedded handlers read. -/
structure DataObj where
  session_id : Option String := none
  kind : Option String := none
  severity : Option String := none
  question_id : Option String := none
  question : Option String := none
  expected : Option String := none
  options : List String := []
  index : Option Int := none
  observation : Option Observation := none
  message : Option String := none
  tool : Option String := none
  outcome : Option String := none
  summary : Option String := none
deriving DecidableEq

/-- One streamed JSON event object.  `type` is the discriminator field; a
missing `type` is modelled as `""` (it then matches no branch, exactly as
`undefined === "..."` is false in JavaScript).  `«at»` is the server-side
timestamp field `at`.  Top-level `observation` / `message` / `tool` / `text`
fields occur on events normalized or synthesized by GrabCar / AgentRunner. -/
structure Payload where
  type : String := ""
  data : Option DataObj := none
  «at» : Option String := none
  observation : Option Observation := none
  message : Option String := none
  tool : Option String := none
  text : Option String := none
deriving DecidableEq

/-- One raw transport line: the text handed to `es.onmessage`, paired with
the result of `JSON.parse` on it (`none` when parsing throws). -/
structure RawLine where
  text : String
  parsed : Option Payload
deriving DecidableEq

/-- JavaScript truthiness of an optional string: `undefined` and `""` are
falsy. -/
def truthy : Option String → Bool
  | some s => s != ""
  | none => false

/-- JavaScript `String.prototype.trim`, modelled structurally on the
character list (strip leading and trailing whitespace) so that concrete
instances reduce inside the kernel. -/
def jsTrim (s : String) : String :=
  ⟨((s.data.dropWhile Char.isWhitespace).reverse.dropWhile
      Char.isWhitespace).reverse⟩

/-- JavaScript `String.prototype.toLowerCase`, modelled structurally. -/
def jsToLower (s : String) : String :=
  ⟨s.data.map Char.toLower⟩

/-- JavaScript `String.prototype.startsWith`, modelled structurally. -/
def jsStartsWith (s p : String) : Bool :=
  p.data.isPrefixOf s.data

namespace AgentStream

/-- The `useState` cells of the canonical AgentStream component
(`src/AgentStream.jsx` lines 364-384), restricted to the event-consumption
core (FCM token cells and the GUI/CLI `mode` toggle are presentation state
with no effect on the reducer).  `esOpen` models whether `esRef.current`
holds an open `EventSource`. -/
structure State where
  events : List Payload := []
  rawLines : List String := []
  status : String := "idle"
  error : String := ""
  activeIndex : Int := -1
  isPlaying : Bool := false
  followLive : Bool := true
  esOpen : Bool := false
  sessionId : String := ""
  clarify : Option DataObj := none
  answerDraft : String := ""
deriving DecidableEq

/-- Initial component state. -/
def initial : State := {}

/-- `handleSSELine` (`src/AgentStream.jsx` lines 428-465): records the raw
line, recognizes the `"[DONE]"` sentinel before any JSON parsing, otherwise
folds the parsed payload: session-id capture from `session` / `clarify`
events, clarify-panel capture, and append to the event log.  The
`UNREGISTERED` token-rotation side effect (lines 446-453) only touches the
external FCM token and is dropped here. -/
def handleSSELine (st : State) (l : RawLine) : State :=
  let st1 := { st with rawLines := st.rawLines ++ [l.text] }
  if l.text = "" then st1
  else if l.text = "[DONE]" then
    { st1 with status := "done", esOpen := false, followLive := false }
  else
    match l.parsed with
    | none => st1
    | some payload =>
      let sid := payload.data.bind (fun d => d.session_id)
      let st2 :=
        if payload.type = "session" ∧ truthy sid then
          { st1 with sessionId := sid.getD "" }
        else st1
      let st3 :=
        if payload.type = "clarify" ∧ truthy sid then
          { st2 with sessionId := sid.getD "" }
        else st2
      let st4 :=
        if payload.type = "clarify" then
          { st3 with clarify := payload.data, status := "awaiting" }
        else st3
      { st4 with events := st4.events ++ [payload] }

/-- Delivery of one line by the transport: a closed `EventSource` fires no
`onmessage` callback, so `handleSSELine` only runs while the subscription
wired by `wireSSE` (lines 467-476) is open. -/
def deliverLine (st : State) (l : RawLine) : State :=
  if st.esOpen then handleSSELine st l else st

/-- `start` (`src/AgentStream.jsx` lines 479-522), success path of the async
body: rejects an empty scenario, closes any previous stream, resets the
derived state (log, raw lines, error, clarify, session id, playback cursor)
and opens a fresh subscription.  `answerDraft` is the one cell `start` does
not reset.  The notification-permission and FCM-token failure branches
concern external collaborators and are not modelled. -/
def start (st : State) (scenarioText : String) : State :=
  if scenarioText = "" then st
  else
    { events := [], rawLines := [], status := "streaming", error := "",
      activeIndex := -1, isPlaying := false, followLive := true,
      esOpen := true, sessionId := "", clarify := none,
      answerDraft := st.answerDraft }

/-- The `start` operation as invocable from the component: its only call
site is the Run button (`src/AgentStream.jsx` line 790), which carries
`disabled=(not scenarioText) or status = "streaming"`, so a click dispatches
`start` only when a scenario is present and no stream is active. -/
def startClick (st : State) (scenarioText : String) : State :=
  if scenarioText = "" ∨ st.status = "streaming" then st
  else start st scenarioText

/-- `stop` (`src/AgentStream.jsx` lines 524-529). -/
def stop (st : State) : State :=
  { st with esOpen := false, status := "done", isPlaying := false,
            followLive := false }

/-- The Stop button (line 793) is disabled unless the stream is active. -/
def stopClick (st : State) : State :=
  if st.status = "streaming" then stop st else st

/-- `es.onerror` (lines 471-475): transport error closes the stream and
surfaces a terminal error state. -/
def onStreamError (st : State) : State :=
  { st with status := "error",
            error := "Stream error. Check backend, CORS, token.",
            esOpen := false }

/-- Query parameters of the resume request built by `resumeWithAnswer`
(lines 544-551): the target session and the JSON-encoded `answers` map.
FCM token parameters concern an external collaborator and are omitted. -/
structure ResumeRequest where
  session_id : String
  answers : String
deriving DecidableEq

/-- `JSON.stringify` of the `answers` object `\x7b[question_id]: answer\x7d`
(or of the empty object), specialized to the one-key string map the source
builds; escaping inside key and value is not modelled. -/
def stringifyAnswers : Option (String × String) → String
  | none => "\x7b\x7d"
  | some (k, v) => "\x7b\"" ++ k ++ "\":\"" ++ v ++ "\"\x7d"

/-- `resumeWithAnswer` (`src/AgentStream.jsx` lines 531-556), success path:
with no known session id it only sets the error string and performs no
transport action; otherwise it closes the stream, encodes the answer under
the pending clarify's `question_id` (or as the empty map when that key is
falsy), clears the clarify panel and the draft, and opens the resume
subscription.  The built request is returned alongside the new state. -/
def resumeWithAnswer (st : State) (answer : String) :
    State × Option ResumeRequest :=
  if st.sessionId = "" then ({ st with error := "Missing session id" }, none)
  else
    let qid := st.clarify.bind (fun c => c.question_id)
    let ans : Option (String × String) :=
      if truthy qid then some (qid.getD "", answer) else none
    ({ st with status := "streaming", esOpen := true, clarify := none,
               answerDraft := "" },
     some { session_id := st.sessionId, answers := stringifyAnswers ans })

/-- State effect of the `image[]` clarify submission (lines 686-707): clear
the clarify panel, return to streaming, reopen the subscription on the
clarify-continue endpoint.  The upload itself is an external collaborator. -/
def imageResume (st : State) : State :=
  { st with clarify := none, status := "streaming", esOpen := true }

/-- States reachable from the freshly mounted component under the modelled
operations: user actions (Run / Stop buttons, clarify answers) and transport
callbacks (line delivery, stream error). -/
inductive Reachable : State → Prop
  | init : Reachable initial
  | step_start (st : State) (s : String) :
      Reachable st → Reachable (startClick st s)
  | step_stop (st : State) : Reachable st → Reachable (stopClick st)
  | step_line (st : State) (l : RawLine) :
      Reachable st → Reachable (deliverLine st l)
  | step_error (st : State) : Reachable st → Reachable (onStreamError st)
  | step_resume (st : State) (a : String) :
      Reachable st → Reachable (resumeWithAnswer st a).1
  | step_image (st : State) : Reachable st → Reachable (imageResume st)

/-- Derived view `classification` (`src/AgentStream.jsx` line 559):
`events.find(e => e.type === "classification")?.data`. -/
def classification (events : List Payload) : Option DataObj :=
  (events.find? (fun e => e.type == "classification")).bind (fun e => e.data)

/-- One entry of the derived `steps` list: the step's `data` object spread
together with the receipt timestamp `ts: e.at` (line 560). -/
structure StepView where
  data : DataObj := {}
  ts : Option String := none
deriving DecidableEq

/-- Derived view `steps` (line 560):
`events.filter(e => e.type === "step").map(e => (...e.data, ts: e.at))`;
spreading an absent `data` yields the empty object. -/
def steps (events : List Payload) : List StepView :=
  (events.filter (fun e => e.type == "step")).map
    (fun e => { data := e.data.getD {}, ts := e.«at» })

/-- The `observation.map` access `steps[i]?.observation?.map` performed by
the map scan. -/
def stepMap (s : StepView) : Option MapPayload :=
  s.data.observation.bind (fun o => o.map)

/-- The backward loop of `mapPayload` (lines 567-570): from index `i` down
to `0`, return the first embedded `observation.map`; an out-of-range index
reads `undefined` and is skipped. -/
def mapPayloadLoop (stepsL : List StepView) : Nat → Option MapPayload
  | 0 => (stepsL.get? 0).bind stepMap
  | i + 1 =>
    match (stepsL.get? (i + 1)).bind stepMap with
    | some m => some m
    | none => mapPayloadLoop stepsL i

/-- Derived view `mapPayload` (`src/AgentStream.jsx` lines 564-572): `none`
on an empty step list, otherwise the backward scan from `activeIndex` when
it is nonnegative and from the last step otherwise. -/
def mapPayload (stepsL : List StepView) (activeIndex : Int) :
    Option MapPayload :=
  if stepsL.length = 0 then none
  else
    let idx : Nat := if 0 ≤ activeIndex then activeIndex.toNat
                     else stepsL.length - 1
    mapPayloadLoop stepsL idx

/-- Modelled from the spec's words for comparison with `mapPayload` (claim
C9): scan the step events backward from position `i` inclusive and return
the first embedded `observation.map` found, or none if no step at position
at most `i` embeds a map. -/
def latestMapSpec (stepsL : List StepView) (i : Nat) : Option MapPayload :=
  ((stepsL.take (i + 1)).reverse).findSome? stepMap

end AgentStream

namespace AgentRunner

/-- `es.onmessage` of AgentRunner
(`src/synapse-frontend/src/components/agent/AgentRunner.jsx` lines 46-59),
restricted to its `onEvent` output channel: the trimmed empty line is
dropped, `"[DONE]"` becomes a synthetic `done` event, a line that fails
`JSON.parse` becomes a synthetic generic event `\x7btype: "text", text:
raw\x7d`, and a parsed object is forwarded as is.  The derived `onSummary` /
`onKpi` callbacks (lines 62-82) read only the forwarded object and are not
modelled. -/
def onmessage (l : RawLine) : Option Payload :=
  let raw := jsTrim l.text
  if raw = "" then none
  else if raw = "[DONE]" then some { type := "done" }
  else
    match l.parsed with
    | none => some { type := "text", text := some raw }
    | some obj => some obj

end AgentRunner

namespace GrabCar

/-- The `useState` cells of the GrabCar page
(`src/synapse-frontend/src/pages/GrabCar.jsx` lines 493-516) that the
event-consumption core writes: the event log, the session id, the pending
clarify, the answer draft, and whether the resume `EventSource`
(`resumeEsRef`) is open.  Presentation cells (merchant pins, alternate
routes, map embeds, KPIs, summary text, overlay toggles) are written by
parts of `handleEvent` not modelled here and are omitted. -/
structure State where
  events : List Payload := []
  sessionId : String := ""
  clarify : Option DataObj := none
  answerDraft : String := ""
  resumeEsOpen : Bool := false
deriving DecidableEq

/-- Initial page state. -/
def initial : State := {}

/-- The normalization performed at the top of `handleEvent` (lines 675-688):
lift `observation`, `message` and `tool` from their legacy nesting sites
into top-level fields via nullish-coalescing chains.  The `params` lift only
feeds the merchant-pin presentation code and is omitted with it. -/
def normalizeEvent (incoming : Payload) : Payload :=
  { incoming with
    observation :=
      incoming.observation.orElse
        (fun _ => incoming.data.bind (fun d => d.observation)),
    message :=
      ((incoming.message.orElse
          (fun _ => incoming.data.bind (fun d => d.message))).orElse
        (fun _ => incoming.observation.bind (fun o => o.message))).orElse
        (fun _ => incoming.data.bind
          (fun d => d.observation.bind (fun o => o.message))),
    tool :=
      (incoming.tool.orElse
        (fun _ => incoming.data.bind (fun d => d.tool))).orElse
        (fun _ => incoming.observation.bind (fun o => o.tool)) }

/-- `handleEvent` (`src/synapse-frontend/src/pages/GrabCar.jsx` lines
672-787), restricted to the modelled cells: normalize, append to the event
log, capture the session id from `session` events, and capture session id
and clarify payload from `clarify` events.  The guard rejecting non-object
inputs is satisfied by every `Payload`.  The merchant-pin, route-map and
summary-text sections write only presentation cells and are omitted. -/
def handleEvent (st : State) (incoming : Payload) : State :=
  let ev := normalizeEvent incoming
  let st1 := { st with events := st.events ++ [ev] }
  let st2 :=
    if ev.type = "session" ∧ truthy (ev.data.bind (fun d => d.session_id))
    then { st1 with sessionId := (ev.data.bind (fun d => d.session_id)).getD "" }
    else st1
  match ev.data with
  | some d =>
    if ev.type = "clarify" then
      let st3 :=
        if truthy d.session_id then
          { st2 with sessionId := d.session_id.getD "" }
        else st2
      { st3 with clarify := some d }
    else st2
  | none => st2

/-- Query parameters of the clarify-continue request built by GrabCar's
`resumeWithAnswer` (lines 627-645). -/
structure ContinueRequest where
  session_id : String
  question_id : String
  expected : String
  answer : String
deriving DecidableEq

/-- Boolean answer encoding (line 635):
`String(answer).toLowerCase().startsWith("y") ? "yes" : "no"`. -/
def encodeBooleanAnswer (answer : String) : String :=
  if jsStartsWith (jsToLower answer) "y" then "yes" else "no"

/-- GrabCar's `resumeWithAnswer` (lines 625-646): silently returns when no
session id or no pending clarify is known; otherwise builds the
clarify-continue request (with `question_id` defaulted to `""` and
`expected` defaulted to `"string"` when falsy, and the answer normalized to
`"yes"`/`"no"` when `expected` is `"boolean"`), clears the clarify panel and
the draft, and opens the resume subscription via `wireResumeSSE`. -/
def resumeWithAnswer (st : State) (answer : String) :
    State × Option ContinueRequest :=
  match st.clarify with
  | none => (st, none)
  | some c =>
    if st.sessionId = "" then (st, none)
    else
      let req : ContinueRequest :=
        { session_id := st.sessionId,
          question_id := c.question_id.getD "",
          expected := if truthy c.expected then c.expected.getD ""
                      else "string",
          answer := if c.expected = some "boolean" then
                      encodeBooleanAnswer answer
                    else answer }
      ({ st with clarify := none, answerDraft := "", resumeEsOpen := true },
       some req)

/-- One line of the run stream as consumed by the GrabCar page: AgentRunner
decodes it (its `onEvent` prop is wired to `handleEvent`, line 940) and any
emitted event is folded into the page state. -/
def runnerStep (st : State) (l : RawLine) : State :=
  match AgentRunner.onmessage l with
  | some ev => handleEvent st ev
  | none => st

end GrabCar

/-! ### Concrete fixtures used by counterexamples and witnesses -/

/-- A classification event of kind `traffic`. -/
def classLineA : Payload :=
  { type := "classification", data := some { kind := some "traffic" } }

/-- A later classification event of a different kind, `damage`. -/
def classLineB : Payload :=
  { type := "classification", data := some { kind := some "damage" } }

/-- A session event carrying the given session id. -/
def sessionPayload (id : String) : Payload :=
  { type := "session", data := some { session_id := some id } }

/-- The raw line carrying a session event. -/
def sessionRaw (id : String) : RawLine :=
  { text := "\x7b\"type\":\"session\",\"data\":\x7b\"session_id\":\"" ++ id
              ++ "\"\x7d\x7d",
    parsed := some (sessionPayload id) }

/-- A keep-alive line: plain text, not valid JSON. -/
def pingLine : RawLine := { text := "ping", parsed := none }

/-- The end-of-stream sentinel line. -/
def doneLine : RawLine := { text := "[DONE]", parsed := none }

/-- A step event with a tool invocation and no embedded map. -/
def stepPayload : Payload :=
  { type := "step",
    data := some { index := some 0, tool := some "check_traffic" },
    «at» := some "2025-01-01T00:00:00Z" }

/-- Raw line for `classLineA`. -/
def classRawA : RawLine :=
  { text := "\x7b\"type\":\"classification\",\"data\":\x7b\"kind\":\"traffic\"\x7d\x7d",
    parsed := some classLineA }

/-- Raw line for `stepPayload`. -/
def stepRaw : RawLine :=
  { text := "\x7b\"type\":\"step\",\"data\":\x7b\"index\":0\x7d\x7d",
    parsed := some stepPayload }

/-- A pending clarify expecting a boolean answer. -/
def clarifyData : DataObj :=
  { question_id := some "q1", question := some "Accept the alternate route?",
    expected := some "boolean" }

/-- A pending clarify that carries no `question_id`. -/
def noQidClarify : DataObj :=
  { question := some "Which route do you prefer?", expected := some "string" }

/-- A state of the AgentStream component while a run is streaming. -/
def streamingDemo : AgentStream.State :=
  AgentStream.startClick AgentStream.initial "traffic jam on ORR"

/-- The streaming state after the end-of-stream sentinel has been delivered. -/
def doneDemo : AgentStream.State :=
  AgentStream.deliverLine streamingDemo doneLine

/-- A GrabCar state with a pending boolean clarify but no known session id. -/
def noSessionState : GrabCar.State :=
  { GrabCar.initial with clarify := some clarifyData }

/-- A GrabCar state with a known session and a pending boolean clarify. -/
def boolClarifyState : GrabCar.State :=
  { GrabCar.initial with sessionId := "abc123", clarify := some clarifyData }

/-! ### C1 — latest classification -/

/-- C1, counterexample: the derived `classification` view uses
`events.find(...)`, so after classification events of kinds `traffic` then
`damage` it reports the FIRST kind, `traffic`, not the second, `damage`, as
the claim's last-write-wins reading requires. -/
theorem c1_counterexample :
    (AgentStream.classification [classLineA, classLineB]).bind
        (fun d => d.kind) = some "traffic" ∧
      (AgentStream.classification [classLineA, classLineB]).bind
        (fun d => d.kind) ≠ some "damage" := by
  constructor
  · rfl
  · decide

/-- C1, amended: the derived `classification` view is first-write-wins: for
any event log whose prefix holds no classification event, it returns the
payload of the first classification event, ignoring all later ones. -/
theorem c1_first_classification_wins (pre post : List Payload) (c : Payload)
    (hpre : ∀ e ∈ pre, e.type ≠ "classification")
    (hc : c.type = "classification") :
    AgentStream.classification (pre ++ c :: post) = c.data := by
  induction pre with
  | nil =>
    simp only [List.nil_append, AgentStream.classification]
    rw [List.find?_cons_of_pos _ (by simp [hc])]
    rfl
  | cons a pre ih =>
    have ha : a.type ≠ "classification" := hpre a (by simp)
    simp only [List.cons_append, AgentStream.classification]
    rw [List.find?_cons_of_neg _ (by simp [ha])]
    exact ih (fun e he => hpre e (by simp [he]))

/-- C1, witness for the amended theorem on the two-classification log. -/
theorem c1_first_classification_wins_witness :
    AgentStream.classification [classLineA, classLineB] = classLineA.data :=
  c1_first_classification_wins [] [classLineB] classLineA (by simp) rfl

/-! ### C2 — session id immutability -/

/-- C2, counterexample: after a session event sets the id to `s1`, a second
session event carrying the different id `s2` DOES change the session id —
`handleSSELine` overwrites it unconditionally, so the id is not
first-write-wins. -/
theorem c2_counterexample :
    (AgentStream.handleSSELine AgentStream.initial
        (sessionRaw "s1")).sessionId = "s1" ∧
      (AgentStream.handleSSELine
          (AgentStream.handleSSELine AgentStream.initial (sessionRaw "s1"))
          (sessionRaw "s2")).sessionId = "s2" ∧
      ("s2" : String) ≠ "s1" := by
  refine ⟨rfl, rfl, by decide⟩

/-- C2, amended: the session id is last-write-wins: every `session` or
`clarify` event carrying a truthy `session_id` overwrites the stored id with
its own, in both the canonical AgentStream reducer and GrabCar's
`handleEvent`, regardless of any previously stored id. -/
theorem c2_session_last_write_wins :
    (∀ (st : AgentStream.State) (t : String) (p : Payload) (v : String),
        t ≠ "" → t ≠ "[DONE]" →
        (p.type = "session" ∨ p.type = "clarify") →
        p.data.bind (fun d => d.session_id) = some v → v ≠ "" →
        (AgentStream.handleSSELine st
            { text := t, parsed := some p }).sessionId = v) ∧
    (∀ (st : GrabCar.State) (p : Payload) (v : String),
        (p.type = "session" ∨ p.type = "clarify") →
        p.data.bind (fun d => d.session_id) = some v → v ≠ "" →
        (GrabCar.handleEvent st p).sessionId = v) := by
  constructor
  · intro st t p v ht hd htype hsid hv
    rcases htype with h | h <;>
      simp [AgentStream.handleSSELine, ht, hd, h, hsid, truthy, hv]
  · intro st p v htype hsid hv
    obtain ⟨d, hpd, hdv⟩ := Option.bind_eq_some.mp hsid
    rcases htype with h | h <;>
      simp [GrabCar.handleEvent, GrabCar.normalizeEvent, h, hpd, hdv,
            truthy, hv]

/-- C2, witness for the amended theorem: a fresh event overwrites an
already-set id in both reducers. -/
theorem c2_session_last_write_wins_witness :
    (AgentStream.handleSSELine
        { AgentStream.initial with sessionId := "old" }
        { text := "x", parsed := some (sessionPayload "new") }).sessionId =
      "new" ∧
    (GrabCar.handleEvent { GrabCar.initial with sessionId := "old" }
        (sessionPayload "new")).sessionId = "new" :=
  ⟨c2_session_last_write_wins.1 _ "x" _ "new" (by decide) (by decide)
      (Or.inl rfl) rfl (by decide),
   c2_session_last_write_wins.2 _ _ "new" (Or.inl rfl) rfl (by decide)⟩

/-! ### C3 — malformed lines -/

/-- C3, counterexample: a plain-text `"ping"` line fed through the
AgentRunner / GrabCar pipeline is NOT dropped: AgentRunner forwards it as a
synthetic generic event, and GrabCar's `handleEvent` appends that event to
the log, so the log grows where the claim requires it unchanged. -/
theorem c3_counterexample :
    (GrabCar.runnerStep GrabCar.initial pingLine).events =
      [{ type := "text", text := some "ping" }] := by
  rfl

/-- C3, amended: in the canonical AgentStream reducer a line that is not
`"[DONE]"` and fails to parse is dropped with no event appended, no change
to status, error, clarify or session id, and no error raised (only the raw
CLI transcript records it); the AgentRunner variant instead forwards such a
line to its consumer as a generic `type := "text"` event (still raising no
error). -/
theorem c3_malformed_line_drop_or_text :
    (∀ (st : AgentStream.State) (l : RawLine), l.parsed = none →
        l.text ≠ "[DONE]" →
        (AgentStream.handleSSELine st l).events = st.events ∧
        (AgentStream.handleSSELine st l).status = st.status ∧
        (AgentStream.handleSSELine st l).error = st.error ∧
        (AgentStream.handleSSELine st l).clarify = st.clarify ∧
        (AgentStream.handleSSELine st l).sessionId = st.sessionId) ∧
    (∀ l : RawLine, l.parsed = none → jsTrim l.text ≠ "" →
        jsTrim l.text ≠ "[DONE]" →
        AgentRunner.onmessage l =
          some { type := "text", text := some (jsTrim l.text) }) := by
  constructor
  · intro st l hp hd
    by_cases h1 : l.text = "" <;>
      simp [AgentStream.handleSSELine, h1, hd, hp]
  · intro l hp h1 h2
    simp [AgentRunner.onmessage, h1, h2, hp]

/-- C3, witness for the amended theorem at the concrete `"ping"` line. -/
theorem c3_malformed_line_witness :
    ((AgentStream.handleSSELine AgentStream.initial pingLine).events =
        AgentStream.initial.events ∧
      (AgentStream.handleSSELine AgentStream.initial pingLine).status =
        AgentStream.initial.status ∧
      (AgentStream.handleSSELine AgentStream.initial pingLine).error =
        AgentStream.initial.error ∧
      (AgentStream.handleSSELine AgentStream.initial pingLine).clarify =
        AgentStream.initial.clarify ∧
      (AgentStream.handleSSELine AgentStream.initial pingLine).sessionId =
        AgentStream.initial.sessionId) ∧
    AgentRunner.onmessage pingLine =
      some { type := "text", text := some (jsTrim pingLine.text) } :=
  ⟨c3_malformed_line_drop_or_text.1 AgentStream.initial pingLine rfl
      (by decide),
   c3_malformed_line_drop_or_text.2 pingLine rfl (by decide) (by decide)⟩

/-! ### C4 — start is guarded -/

/-- C4: the `start` operation is a no-op when the scenario description is
empty or a stream is already streaming — in the latter case the event log
and the open subscription (the whole component state) are left unchanged:
no close, no reset, no new subscription. -/
theorem c4_start_guard (st : AgentStream.State) (s : String)
    (h : s = "" ∨ st.status = "streaming") :
    AgentStream.startClick st s = st := by
  rcases h with h | h <;> simp [AgentStream.startClick, h]

/-- C4, witness: on a streaming state a second `start` changes nothing, and
`start` with an empty scenario changes nothing. -/
theorem c4_start_guard_witness :
    AgentStream.startClick streamingDemo "another scenario" = streamingDemo ∧
    AgentStream.startClick AgentStream.initial "" = AgentStream.initial :=
  ⟨c4_start_guard streamingDemo "another scenario" (Or.inr rfl),
   c4_start_guard AgentStream.initial "" (Or.inl rfl)⟩

/-! ### C5 — end-of-stream terminality -/

/-- Helper for the reachability invariant: one processed line can only reach
the `done` status by closing the stream, or by leaving status and
subscription untouched. -/
theorem handleSSELine_done_cases (st : AgentStream.State) (l : RawLine)
    (hd : (AgentStream.handleSSELine st l).status = "done") :
    (AgentStream.handleSSELine st l).esOpen = false ∨
      ((AgentStream.handleSSELine st l).esOpen = st.esOpen ∧
        st.status = "done") := by
  by_cases h1 : l.text = ""
  · right
    simp [AgentStream.handleSSELine, h1] at hd ⊢
    exact hd
  · by_cases h2 : l.text = "[DONE]"
    · left
      simp [AgentStream.handleSSELine, h1, h2]
    · cases hp : l.parsed with
      | none =>
        right
        simp [AgentStream.handleSSELine, h1, h2, hp] at hd ⊢
        exact hd
      | some p =>
        by_cases hc : p.type = "clarify"
        · simp [AgentStream.handleSSELine, h1, h2, hp, hc] at hd
        · right
          simp [AgentStream.handleSSELine, h1, h2, hp, hc] at hd ⊢
          constructor
          · split_ifs <;> rfl
          · split_ifs at hd <;> exact hd

/-- Invariant: in every reachable state of the stream lifecycle, the `done`
status implies the subscription is closed. -/
theorem reachable_done_closed {st : AgentStream.State}
    (h : AgentStream.Reachable st) :
    st.status = "done" → st.esOpen = false := by
  induction h with
  | init => intro hd; exact absurd hd (by decide)
  | step_start st s _ ih =>
    intro hd
    unfold AgentStream.startClick AgentStream.start at hd ⊢
    split_ifs at hd ⊢
    · exact ih hd
    · exact ih hd
    · simp at hd
  | step_stop st _ ih =>
    intro hd
    unfold AgentStream.stopClick AgentStream.stop at hd ⊢
    split_ifs at hd ⊢
    · rfl
    · exact ih hd
  | step_line st l _ ih =>
    intro hd
    unfold AgentStream.deliverLine at hd ⊢
    split_ifs at hd ⊢ with he
    · rcases handleSSELine_done_cases st l hd with h | ⟨heq, hst⟩
      · exact h
      · rw [heq]; exact ih hst
    · exact ih hd
  | step_error st _ ih =>
    intro hd
    simp [AgentStream.onStreamError] at hd
  | step_resume st a _ ih =>
    intro hd
    unfold AgentStream.resumeWithAnswer at hd ⊢
    split_ifs at hd ⊢
    · exact ih hd
    · simp at hd
  | step_image st _ ih =>
    intro hd
    simp [AgentStream.imageResume] at hd

/-- C5: the end-of-stream sentinel is recognized by comparing the raw line
to `"[DONE]"` before any JSON parsing — the transition is the same whatever
`JSON.parse` would have returned for the line — and it moves the manager to
`done` while closing the subscription; afterwards, in any reachable `done`
state, delivering further lines is a no-op that does not mutate the log. -/
theorem c5_done_terminality :
    (∀ (st : AgentStream.State) (parsed : Option Payload),
        AgentStream.handleSSELine st { text := "[DONE]", parsed := parsed } =
          { st with rawLines := st.rawLines ++ ["[DONE]"],
                    status := "done", esOpen := false,
                    followLive := false }) ∧
    (∀ (st : AgentStream.State) (l : RawLine),
        AgentStream.Reachable st → st.status = "done" →
        AgentStream.deliverLine st l = st) := by
  constructor
  · intro st parsed
    rfl
  · intro st l hr hd
    unfold AgentStream.deliverLine
    rw [if_neg]
    rw [reachable_done_closed hr hd]
    simp

/-- C5, witness: the sentinel transition at a concrete state and parse
result, and terminality at the concrete reachable `done` state reached by
starting a run and delivering `"[DONE]"`. -/
theorem c5_done_terminality_witness :
    AgentStream.handleSSELine AgentStream.initial
        { text := "[DONE]", parsed := some (sessionPayload "s9") } =
      { AgentStream.initial with rawLines := [] ++ ["[DONE]"],
                                 status := "done", esOpen := false,
                                 followLive := false } ∧
    AgentStream.deliverLine doneDemo pingLine = doneDemo :=
  ⟨c5_done_terminality.1 AgentStream.initial (some (sessionPayload "s9")),
   c5_done_terminality.2 doneDemo pingLine
     (AgentStream.Reachable.step_line _ doneLine
       (AgentStream.Reachable.step_start _ "traffic jam on ORR"
         AgentStream.Reachable.init))
     rfl⟩

/-! ### C6 — resume with no session id -/

/-- C6, counterexample: in the GrabCar variant, `resumeWithAnswer` on a
state with a pending clarify but no known session id returns with the state
completely unchanged and no request built — no `MissingSessionError` (nor
any other failure indication) is surfaced to the caller anywhere in the
result, where the claim requires a synchronous error. -/
theorem c6_counterexample :
    GrabCar.resumeWithAnswer noSessionState "no" = (noSessionState, none) :=
  rfl

/-- C6, amended: when no session id is known, `resume` performs no transport
action in either variant (no request is built, no subscription is opened);
the canonical AgentStream surfaces the failure synchronously by setting the
error string `"Missing session id"`, while the GrabCar variant returns
silently with no error surfaced. -/
theorem c6_missing_session :
    (∀ (st : AgentStream.State) (a : String), st.sessionId = "" →
        AgentStream.resumeWithAnswer st a =
          ({ st with error := "Missing session id" }, none)) ∧
    (∀ (st : GrabCar.State) (a : String), st.sessionId = "" →
        GrabCar.resumeWithAnswer st a = (st, none)) := by
  constructor
  · intro st a h
    simp [AgentStream.resumeWithAnswer, h]
  · intro st a h
    cases hc : st.clarify <;> simp [GrabCar.resumeWithAnswer, hc, h]

/-- C6, witness for the amended theorem at concrete session-less states. -/
theorem c6_missing_session_witness :
    AgentStream.resumeWithAnswer AgentStream.initial "no" =
      ({ AgentStream.initial with error := "Missing session id" }, none) ∧
    GrabCar.resumeWithAnswer GrabCar.initial "no" = (GrabCar.initial, none) :=
  ⟨c6_missing_session.1 AgentStream.initial "no" rfl,
   c6_missing_session.2 GrabCar.initial "no" rfl⟩

/-! ### C7 — clarify persists until cleared -/

/-- Helper: a processed line whose parse result is not a `clarify` event
leaves the pending clarify untouched. -/
theorem handleSSELine_clarify_eq (st : AgentStream.State) (l : RawLine)
    (h : l.parsed.all (fun p => p.type != "clarify") = true) :
    (AgentStream.handleSSELine st l).clarify = st.clarify := by
  by_cases h1 : l.text = ""
  · simp [AgentStream.handleSSELine, h1]
  · by_cases h2 : l.text = "[DONE]"
    · simp [AgentStream.handleSSELine, h1, h2]
    · cases hp : l.parsed with
      | none => simp [AgentStream.handleSSELine, h1, h2, hp]
      | some p =>
        have hc : ¬p.type = "clarify" := by
          simpa [hp, bne_iff_ne] using h
        simp only [AgentStream.handleSSELine, h1, h2, hp]
        simp [hc]
        split_ifs <;> rfl

/-- C7: after a clarify event is folded in, the pending clarify survives the
arrival of any sequence of further non-`clarify` events (classification,
step, summary, malformed lines, even the end-of-stream sentinel) unchanged;
it is reset to none by the explicit clear performed when a resume request is
dispatched. -/
theorem c7_clarify_persists :
    (∀ (st : AgentStream.State) (c : DataObj) (ls : List RawLine),
        st.clarify = some c →
        (∀ l ∈ ls, l.parsed.all (fun p => p.type != "clarify") = true) →
        (ls.foldl AgentStream.handleSSELine st).clarify = some c) ∧
    (∀ (st : AgentStream.State) (a : String), st.sessionId ≠ "" →
        ((AgentStream.resumeWithAnswer st a).1).clarify = none) := by
  constructor
  · intro st c ls
    induction ls generalizing st with
    | nil => intro h _; simpa using h
    | cons l ls ih =>
      intro h hall
      simp only [List.foldl_cons]
      exact ih _ ((handleSSELine_clarify_eq st l (hall l (by simp))).trans h)
        (fun l' hl' => hall l' (by simp [hl']))
  · intro st a h
    simp [AgentStream.resumeWithAnswer, h]

/-- C7, witness: a pending boolean clarify survives a classification event
and a step event, and resuming with a known session clears it. -/
theorem c7_clarify_persists_witness :
    (([classRawA, stepRaw].foldl AgentStream.handleSSELine
        { AgentStream.initial with clarify := some clarifyData }).clarify =
      some clarifyData) ∧
    ((AgentStream.resumeWithAnswer
        { AgentStream.initial with sessionId := "abc123",
                                   clarify := some clarifyData }
        "yes").1).clarify = none :=
  ⟨c7_clarify_persists.1 _ clarifyData [classRawA, stepRaw] rfl (by decide),
   c7_clarify_persists.2 _ "yes" (by decide)⟩

/-! ### C8 — boolean answer encoding -/

/-- C8: resuming a pending clarify whose expected type is `"boolean"` builds
a clarify-continue request that targets the current session id and whose
encoded answer is one of the literal strings `"yes"` / `"no"`; in particular
the answer `"no"` is encoded as `"no"`. -/
theorem c8_boolean_resume (st : GrabCar.State) (c : DataObj) (a : String)
    (hc : st.clarify = some c) (he : c.expected = some "boolean")
    (hs : st.sessionId ≠ "") :
    (GrabCar.resumeWithAnswer st a).2 =
      some { session_id := st.sessionId,
             question_id := c.question_id.getD "",
             expected := "boolean",
             answer := GrabCar.encodeBooleanAnswer a } ∧
    (GrabCar.encodeBooleanAnswer a = "yes" ∨
      GrabCar.encodeBooleanAnswer a = "no") ∧
    GrabCar.encodeBooleanAnswer "no" = "no" := by
  refine ⟨?_, ?_, by decide⟩
  · simp [GrabCar.resumeWithAnswer, hc, hs, he, truthy]
  · unfold GrabCar.encodeBooleanAnswer
    split_ifs
    · exact Or.inl rfl
    · exact Or.inr rfl

/-- C8, witness: answering `"no"` to the concrete pending boolean clarify of
session `abc123`. -/
theorem c8_boolean_resume_witness :
    (GrabCar.resumeWithAnswer boolClarifyState "no").2 =
      some { session_id := boolClarifyState.sessionId,
             question_id := clarifyData.question_id.getD "",
             expected := "boolean",
             answer := GrabCar.encodeBooleanAnswer "no" } ∧
    (GrabCar.encodeBooleanAnswer "no" = "yes" ∨
      GrabCar.encodeBooleanAnswer "no" = "no") ∧
    GrabCar.encodeBooleanAnswer "no" = "no" :=
  c8_boolean_resume boolClarifyState clarifyData "no" rfl rfl (by decide)

/-! ### C9 — backward map scan -/

/-- Helper: the backward loop of `mapPayload` computes exactly the
declarative backward scan `latestMapSpec`. -/
theorem mapPayloadLoop_eq_spec (stepsL : List AgentStream.StepView)
    (i : Nat) :
    AgentStream.mapPayloadLoop stepsL i =
      AgentStream.latestMapSpec stepsL i := by
  induction i with
  | zero =>
    unfold AgentStream.mapPayloadLoop AgentStream.latestMapSpec
    cases stepsL with
    | nil => simp
    | cons a l =>
      simp [List.findSome?]
      cases h : AgentStream.stepMap a <;> simp [h]
  | succ i ih =>
    have hspec : AgentStream.latestMapSpec stepsL (i + 1) =
        match (stepsL.get? (i + 1)).bind AgentStream.stepMap with
        | some m => some m
        | none => AgentStream.latestMapSpec stepsL i := by
      unfold AgentStream.latestMapSpec
      rw [List.take_succ]
      cases hg : stepsL.get? (i + 1) with
      | none =>
        rw [List.get?_eq_getElem?] at hg
        simp [hg]
      | some a =>
        rw [List.get?_eq_getElem?] at hg
        simp only [hg, Option.toList_some, List.reverse_singleton,
                   List.singleton_append, List.findSome?]
        cases hm : AgentStream.stepMap a <;> simp [hm]
    rw [hspec]
    unfold AgentStream.mapPayloadLoop
    cases hg : (stepsL.get? (i + 1)).bind AgentStream.stepMap <;> simp [ih]

/-- C9: for every step list and every index `i`, the derived `mapPayload`
view at cursor `i` equals the declarative backward scan: the first
`observation.map` found scanning the steps backward from position `i`
inclusive, or none when no step at position at most `i` embeds a map — so
later map-less steps never clear the last-known-good map payload. -/
theorem c9_map_scan (stepsL : List AgentStream.StepView) (i : Nat) :
    AgentStream.mapPayload stepsL (Int.ofNat i) =
      AgentStream.latestMapSpec stepsL i := by
  unfold AgentStream.mapPayload
  by_cases h : stepsL.length = 0
  · rw [if_pos h]
    rw [List.length_eq_zero] at h
    subst h
    simp [AgentStream.latestMapSpec]
  · rw [if_neg h]
    show AgentStream.mapPayloadLoop stepsL
        (if 0 ≤ Int.ofNat i then (Int.ofNat i).toNat else stepsL.length - 1) =
      AgentStream.latestMapSpec stepsL i
    have hge : 0 ≤ Int.ofNat i := Int.ofNat_nonneg i
    rw [if_pos hge]
    exact mapPayloadLoop_eq_spec stepsL i

/-! ### C10 — resume with no question id -/

/-- C10: when the pending clarify carries no truthy `question_id`, resuming
raises no error and silently degrades: the canonical AgentStream variant
still builds a request for the current session but encodes the `answers`
parameter as the empty JSON map (discarding the supplied answer), leaving
the error cell untouched, while the GrabCar variant builds its
clarify-continue request with the empty string as the `question_id`
correlation key. -/
theorem c10_missing_question_id :
    (∀ (st : AgentStream.State) (a : String),
        st.sessionId ≠ "" →
        truthy (st.clarify.bind (fun c => c.question_id)) = false →
        (AgentStream.resumeWithAnswer st a).2 =
          some { session_id := st.sessionId, answers := "\x7b\x7d" } ∧
        ((AgentStream.resumeWithAnswer st a).1).error = st.error) ∧
    (∀ (st : GrabCar.State) (c : DataObj) (a : String),
        st.clarify = some c → truthy c.question_id = false →
        st.sessionId ≠ "" →
        (GrabCar.resumeWithAnswer st a).2.map (fun r => r.question_id) =
          some "") := by
  constructor
  · intro st a hs hq
    constructor
    · simp [AgentStream.resumeWithAnswer, hs, hq,
            AgentStream.stringifyAnswers]
    · simp [AgentStream.resumeWithAnswer, hs]
  · intro st c a hc hq hs
    have hqid : c.question_id.getD "" = "" := by
      cases hq' : c.question_id with
      | none => rfl
      | some s =>
        have : s = "" := by simpa [truthy, hq'] using hq
        simp [this]
    simp [GrabCar.resumeWithAnswer, hc, hs, hqid]

/-- C10, witness: resuming the concrete clarify without a `question_id` in
both variants. -/
theorem c10_missing_question_id_witness :
    ((AgentStream.resumeWithAnswer
        { AgentStream.initial with sessionId := "abc123",
                                   clarify := some noQidClarify }
        "left").2 =
      some { session_id := "abc123", answers := "\x7b\x7d" } ∧
     ((AgentStream.resumeWithAnswer
        { AgentStream.initial with sessionId := "abc123",
                                   clarify := some noQidClarify }
        "left").1).error = "") ∧
    (GrabCar.resumeWithAnswer
        { GrabCar.initial with sessionId := "abc123",
                               clarify := some noQidClarify }
        "left").2.map (fun r => r.question_id) = some "" :=
  ⟨c10_missing_question_id.1
      { AgentStream.initial with sessionId := "abc123",
                                 clarify := some noQidClarify }
      "left" (by decide) rfl,
   c10_missing_question_id.2
      { GrabCar.initial with sessionId := "abc123",
                             clarify := some noQidClarify }
      noQidClarify "left" rfl rfl (by decide)⟩
